import Mathlib

/-! # Shallow embedding of the goal/OKR backend (src/goal.js, MySQL variant)

Rows are modelled as structures; `Option` encodes a SQL NULL column. Each
route handler becomes a pure function from the rows the route fetches and
the parsed request to an `Except Nat row` value: `.error s` is an early
`res.status(s)` return, taken before any UPDATE statement is issued (so the
stored row is unchanged), and `.ok r` is the row state produced by the
`buildUpdate` write (which drops absent fields, so an `Option` field that is
`none` in the payload leaves the column untouched). JS numbers are modelled
as `ℚ` for `progress` and `Int` for counters and day numbers; a calendar
date is its day number (days since the JS epoch, whose weekday offset is
folded into `jsWeekStart`). -/

deriving instance DecidableEq for Except

/-- A `goals` row, restricted to the columns the handlers read or write. -/
structure Goal where
  user_id : String
  status : String
  review_status : Option String
  is_locked : Bool
  progress : ℚ
  leader_review_notes : Option String
deriving DecidableEq

/-- An `action_plans` row, restricted to the columns the handlers touch. -/
structure ActionPlan where
  goal_id : String
  status : Option String
  end_date : Option String
  request_deadline_date : Option String
  deadline_change_count : Option Int
  review_status : Option String
  is_locked : Bool
  leader_review_notes : Option String
  evidence_link : Option String
deriving DecidableEq

/-- A `weekly_reports` row; `date` is the parsed day number, `none` when the
stored string fails the `isValidDateOnly` check of the source. -/
structure WeeklyReport where
  action_plan_id : String
  goal_id : String
  date : Option Int
deriving DecidableEq

/-- The authenticated request identity: `req.user.sub` and the normalised
`cognito:groups` list (the source coerces a scalar group claim to a
one-element array before use). -/
structure Identity where
  sub : String
  groups : List String
deriving DecidableEq

/-- Embeds `isLeaderUser` of src/goal.js line 66: membership of the literal
group name `leader` only. -/
def isLeaderUser (idt : Identity) : Bool :=
  idt.groups.contains "leader"

/-- Outcome of the access guards: `allowed`, or a denial carrying the HTTP
status and message the guard returns. -/
inductive AccessResult where
  | allowed
  | denied (status : Nat) (message : String)
deriving DecidableEq

/-- Embeds `assertCanAccessGoal` (src/goal.js lines 443-450); the fetched
row is passed in as `goal`. -/
def assertCanAccessGoal (idt : Identity) (goal : Option Goal) : AccessResult :=
  if isLeaderUser idt then .allowed
  else
    match goal with
    | none => .denied 404 "Goal not found"
    | some g =>
      if g.user_id ≠ idt.sub then .denied 403 "Forbidden" else .allowed

/-- Embeds `assertCanAccessActionPlan` (src/goal.js lines 452-461); `goalOf`
is the goals-by-id lookup used for the second fetch. -/
def assertCanAccessActionPlan (idt : Identity) (plan : Option ActionPlan)
    (goalOf : String → Option Goal) : AccessResult :=
  if isLeaderUser idt then .allowed
  else
    match plan with
    | none => .denied 404 "Action plan not found"
    | some p =>
      match goalOf p.goal_id with
      | none => .denied 404 "Goal not found"
      | some g =>
        if g.user_id ≠ idt.sub then .denied 403 "Forbidden" else .allowed

/-- Embeds `assertCanAccessWeeklyReport` (src/goal.js lines 463-470), which
delegates to the action-plan guard. -/
def assertCanAccessWeeklyReport (idt : Identity) (report : Option WeeklyReport)
    (planOf : String → Option ActionPlan) (goalOf : String → Option Goal) : AccessResult :=
  if isLeaderUser idt then .allowed
  else
    match report with
    | none => .denied 404 "Weekly report not found"
    | some r => assertCanAccessActionPlan idt (planOf r.action_plan_id) goalOf

/-- A member `PUT /goals/:id` JSON body: a `some` field marks a key that is
present in the body, and `extraKeys` stands for any further columns present
(for example `title` or `description`). `progress`, when present, is a
numeric JS value, i.e. the `Number.isNaN` guard of the handler passed. -/
structure GoalUpdates where
  user_id : Option String := none
  progress : Option ℚ := none
  status : Option String := none
  review_status : Option String := none
  is_locked : Option Bool := none
  extraKeys : List String := []
deriving DecidableEq

/-- The `Object.keys` view of a `GoalUpdates` payload. -/
def GoalUpdates.keys (u : GoalUpdates) : List String :=
  (if u.user_id.isSome then ["user_id"] else []) ++
  (if u.progress.isSome then ["progress"] else []) ++
  (if u.status.isSome then ["status"] else []) ++
  (if u.review_status.isSome then ["review_status"] else []) ++
  (if u.is_locked.isSome then ["is_locked"] else []) ++
  u.extraKeys

/-- Embeds `Math.max(0, Math.min(100, n))` of src/goal.js line 509. -/
def clampProgress (p : ℚ) : ℚ :=
  max 0 (min 100 p)

/-- Embeds the progress pre-processing of `PUT /goals/:id` (src/goal.js
lines 506-513): clamp a present numeric progress and force
`status = "Completed"` when the clamped value reaches 100. -/
def processProgress (u : GoalUpdates) : GoalUpdates :=
  match u.progress with
  | none => u
  | some p =>
    let c := clampProgress p
    if c ≥ 100 then { u with progress := some c, status := some "Completed" }
    else { u with progress := some c }

/-- Partial-update semantics of `buildUpdate` on a `goals` row: every
present field overwrites the column, absent fields leave it unchanged. -/
def applyGoalUpdates (g : Goal) (u : GoalUpdates) : Goal :=
  { user_id := match u.user_id with | some s => s | none => g.user_id
    status := match u.status with | some s => s | none => g.status
    review_status := match u.review_status with | some s => some s | none => g.review_status
    is_locked := match u.is_locked with | some b => b | none => g.is_locked
    progress := match u.progress with | some p => p | none => g.progress
    leader_review_notes := g.leader_review_notes }

/-- Embeds the member `PUT /goals/:id` handler (src/goal.js lines 500-539):
destructure `user_id` out of the body, clamp progress, then run the
ownership and lock checks before writing. -/
def putGoal (goal : Option Goal) (callerId : String) (body : GoalUpdates) :
    Except Nat Goal :=
  let updates0 : GoalUpdates := { body with user_id := none }
  let updates := processProgress updates0
  match goal with
  | none => .error 404
  | some g =>
    if g.user_id ≠ callerId then .error 403
    else if g.is_locked then
      if g.review_status = some "Approved" then
        if updates.keys.any (fun k => !(k == "progress" || k == "status")) then .error 423
        else .ok (applyGoalUpdates g updates)
      else .error 423
    else .ok (applyGoalUpdates g updates)

/-- Embeds `POST /goals` (src/goal.js lines 474-485): the inserted object is
the body spread first, then `user_id` overwritten with the caller id. -/
def postGoalInsert (body : GoalUpdates) (callerId : String) : GoalUpdates :=
  { body with user_id := some callerId }

/-- Embeds `POST /goals/:id/request-review` (src/goal.js lines 541-562);
`hasActionPlan` is the result of the `select id from action_plans where
goal_id = ? limit 1` existence probe. -/
def requestReview (goal : Option Goal) (callerId : String) (hasActionPlan : Bool) :
    Except Nat Goal :=
  match goal with
  | none => .error 404
  | some g =>
    if g.user_id ≠ callerId then .error 403
    else if g.review_status = some "Approved" then .error 409
    else if !hasActionPlan then .error 409
    else .ok { g with review_status := some "Pending", is_locked := true }

/-- Embeds `POST /goals/:id/cancel-review` (src/goal.js lines 564-580). -/
def cancelReview (goal : Option Goal) (callerId : String) : Except Nat Goal :=
  match goal with
  | none => .error 404
  | some g =>
    if g.user_id ≠ callerId then .error 403
    else if g.review_status = some "Approved" then .error 409
    else .ok { g with review_status := some "Cancelled", is_locked := false }

/-- Embeds the lock ternary of `PUT /leader/goals/:id/review` (src/goal.js
line 2108): `Approved` locks, `Rejected`/`Cancelled` unlock, everything else
locks. -/
def goalReviewLock (status : String) : Bool :=
  if status == "Approved" then true
  else if status == "Rejected" || status == "Cancelled" then false
  else true

/-- Embeds `PUT /leader/goals/:id/review` (src/goal.js lines 2105-2145).
`comment = none` models an absent `comment` key, which `buildUpdate` drops,
leaving the notes column unchanged. The audit columns are handled separately
by `reviewWriteAttempts`; their retry writes the same base fields, so the
resulting row below holds on either write path. -/
def leaderGoalReview (goal : Option Goal) (status : String) (comment : Option String) :
    Except Nat Goal :=
  match goal with
  | none => .error 404
  | some existing =>
    let nextStatus :=
      if status == "Approved" && (existing.status == "Not started" || existing.status == "Draft")
      then "In Progress" else existing.status
    .ok { existing with
          review_status := some status
          leader_review_notes := match comment with | some c => some c | none => existing.leader_review_notes
          is_locked := goalReviewLock status
          status := nextStatus }

/-- A member `PUT /action-plans/:id` JSON body. Nullable string columns use
two `Option` layers: the outer layer is key presence, the inner layer is the
JSON `null` versus a string. `extraKeys` stands for further present columns
(for example `title`). -/
structure PlanUpdates where
  end_date : Option (Option String) := none
  status : Option (Option String) := none
  evidence_link : Option (Option String) := none
  request_deadline_date : Option (Option String) := none
  deadline_change_count : Option Int := none
  review_status : Option (Option String) := none
  is_locked : Option Bool := none
  leader_review_notes : Option (Option String) := none
  extraKeys : List String := []
deriving DecidableEq

/-- The `Object.keys` view of a `PlanUpdates` payload. -/
def PlanUpdates.keys (u : PlanUpdates) : List String :=
  (if u.end_date.isSome then ["end_date"] else []) ++
  (if u.status.isSome then ["status"] else []) ++
  (if u.evidence_link.isSome then ["evidence_link"] else []) ++
  (if u.request_deadline_date.isSome then ["request_deadline_date"] else []) ++
  (if u.deadline_change_count.isSome then ["deadline_change_count"] else []) ++
  (if u.review_status.isSome then ["review_status"] else []) ++
  (if u.is_locked.isSome then ["is_locked"] else []) ++
  (if u.leader_review_notes.isSome then ["leader_review_notes"] else []) ++
  u.extraKeys

/-- Partial-update semantics of `buildUpdate` on an `action_plans` row. -/
def applyPlanUpdates (p : ActionPlan) (u : PlanUpdates) : ActionPlan :=
  { goal_id := p.goal_id
    status := match u.status with | some v => v | none => p.status
    end_date := match u.end_date with | some v => v | none => p.end_date
    request_deadline_date := match u.request_deadline_date with | some v => v | none => p.request_deadline_date
    deadline_change_count := match u.deadline_change_count with | some n => some n | none => p.deadline_change_count
    review_status := match u.review_status with | some v => v | none => p.review_status
    is_locked := match u.is_locked with | some b => b | none => p.is_locked
    leader_review_notes := match u.leader_review_notes with | some v => v | none => p.leader_review_notes
    evidence_link := match u.evidence_link with | some v => v | none => p.evidence_link }

/-- Embeds `Number(existingPlan.deadline_change_count || 0)` of src/goal.js
line 722: a NULL counter reads as 0. -/
def planCount (p : ActionPlan) : Int :=
  match p.deadline_change_count with | some n => n | none => 0

/-- Embeds the `currentRequested || existingPlan.end_date` computation of
src/goal.js lines 719-720: an outstanding (truthy, i.e. non-empty)
`request_deadline_date` wins, otherwise the stored `end_date`. -/
def effectiveDeadline (p : ActionPlan) : Option String :=
  match p.request_deadline_date with
  | some s => if s = "" then p.end_date else some s
  | none => p.end_date

/-- Embeds `req.body.status !== plan.status` under the
`typeof req.body?.status !== 'undefined'` guard (src/goal.js line 710). -/
def planStatusChanged (p : ActionPlan) (u : PlanUpdates) : Bool :=
  match u.status with
  | none => false
  | some v => v != p.status

/-- The forced payload of a successful deadline-change proposal (src/goal.js
lines 724-733): the explicit fields of the object literal override any
same-named keys spread from the body, and `end_date` is deleted. -/
def deadlineApplied (p : ActionPlan) (body : PlanUpdates) (d : String) : PlanUpdates :=
  { body with
    end_date := none
    request_deadline_date := some (some d)
    deadline_change_count := some (planCount p + 1)
    review_status := some (some "Pending")
    is_locked := some true
    leader_review_notes := some none }

/-- Embeds the member path of `PUT /action-plans/:id` (src/goal.js lines
688-744): access checks, the locked/pending key allow-list, the status
freeze during pending review, and the deadline-change quota protocol. The
fetched plan row and the owning goal row are passed in. -/
def putActionPlanMember (callerId : String) (plan? : Option ActionPlan)
    (goal? : Option Goal) (body : PlanUpdates) : Except Nat ActionPlan :=
  match plan? with
  | none => .error 404
  | some plan =>
    match goal? with
    | none => .error 404
    | some goal =>
      if goal.user_id ≠ callerId then .error 403
      else if plan.is_locked && plan.review_status == some "Pending"
            && body.keys.any (fun k => !(k == "end_date")) then .error 423
      else if plan.review_status == some "Pending" && planStatusChanged plan body then .error 409
      else
        match body.end_date with
        | some (some d) =>
          if d ≠ "" ∧ effectiveDeadline plan ≠ some d then
            if planCount plan ≥ 3 then .error 409
            else .ok (applyPlanUpdates plan (deadlineApplied plan body d))
          else .ok (applyPlanUpdates plan { body with end_date := none })
        | some none => .ok (applyPlanUpdates plan body)
        | none => .ok (applyPlanUpdates plan body)

/-- Embeds the JS truthiness test on a nullable string column. -/
def jsTruthy (o : Option String) : Bool :=
  match o with
  | none => false
  | some s => s != ""

/-- Embeds `PUT /leader/action-plans/:id/review` (src/goal.js lines
2147-2192): lock only on `Pending`; on `Approved` with a truthy pending
deadline, copy it into `end_date` and clear it; on `Rejected`, clear it
without applying. Audit columns are handled by `reviewWriteAttempts` and do
not touch these fields. -/
def leaderPlanReview (plan? : Option ActionPlan) (status : String)
    (comment : Option String) : Except Nat ActionPlan :=
  match plan? with
  | none => .error 404
  | some plan =>
    let base : ActionPlan :=
      { plan with
        review_status := some status
        leader_review_notes := match comment with | some c => some c | none => plan.leader_review_notes
        is_locked := status == "Pending" }
    let withDl : ActionPlan :=
      if status == "Approved" && jsTruthy plan.request_deadline_date
      then { base with end_date := plan.request_deadline_date, request_deadline_date := none }
      else base
    let fin : ActionPlan :=
      if status == "Rejected" then { withDl with request_deadline_date := none } else withDl
    .ok fin

/-- Embeds `startOfWeekMonday` (src/goal.js lines 48-54) on day numbers:
day number `n` counts days since the JS epoch (1970-01-01, a Thursday), so
`getDay()` is `(n + 4) % 7` and `(getDay() + 6) % 7` is `(n + 3) % 7`; the
Monday of the week of `n` is `n` minus that offset. `weekKey` (line 56) maps
a day to the date string of this Monday, which is injective on day numbers,
so the week key is modelled by the Monday day number itself. -/
def jsWeekStart (n : Int) : Int :=
  n - (n + 3) % 7

/-- The `weeksWithActivity` set of `computeMemberInsights` (src/goal.js
lines 1262-1270): the week keys of the reports whose date parses. -/
def reportWeeks (reports : List WeeklyReport) : List Int :=
  reports.filterMap (fun r => r.date.map jsWeekStart)

/-- The streak loop body of src/goal.js lines 1272-1278, recursing on the
remaining iterations of the `for` loop: at step `i` it tests week
`thisWeekStart - 7*i`, counts it when active, and stops at the first gap. -/
def streakFrom (wks : List Int) (ws : Int) (i : Nat) : Nat → Nat
  | 0 => 0
  | fuel + 1 =>
    if wks.contains (jsWeekStart (ws - 7 * (i : Int))) then
      streakFrom wks ws (i + 1) fuel + 1
    else 0

/-- The `streak_weeks` metric of `computeMemberInsights`: walk backward from
the Monday of the current week, one week per loop iteration, for at most
`lookbackWeeks` iterations. -/
def streakWeeks (reports : List WeeklyReport) (now : Int) (lookbackWeeks : Nat) : Nat :=
  streakFrom (reportWeeks reports) (jsWeekStart now) 0 lookbackWeeks

/-- Activity test for the week `i` weeks before the current one, exactly as
the loop tests it. -/
def weekActiveAt (reports : List WeeklyReport) (now : Int) (i : Nat) : Bool :=
  (reportWeeks reports).contains (jsWeekStart (jsWeekStart now - 7 * (i : Int)))

/-- A distinguishable gateway error, as surfaced by the mysql2 driver. -/
structure DbError where
  code : String
  message : String
deriving DecidableEq

/-- Character-list version of JS `String.prototype.startsWith`. -/
def listStarts : List Char → List Char → Bool
  | [], _ => true
  | _ :: _, [] => false
  | a :: as, b :: bs => a == b && listStarts as bs

/-- Character-list version of JS `String.prototype.includes`. -/
def listHasSub (needle : List Char) : List Char → Bool
  | [] => listStarts needle []
  | b :: bs => listStarts needle (b :: bs) || listHasSub needle bs

/-- ASCII lower-casing of a character, as `toLowerCase` acts on the ASCII
driver messages the handler inspects. -/
def charLower (c : Char) : Char :=
  if 65 ≤ c.toNat ∧ c.toNat ≤ 90 then Char.ofNat (c.toNat + 32) else c

/-- Embeds `msg.includes(...)` on strings. -/
def containsSub (needle hay : String) : Bool :=
  listHasSub needle.toList hay.toList

/-- Embeds `isMissingColumnError` (src/goal.js lines 2100-2103): the mysql
error code `ER_BAD_FIELD_ERROR`, or the lower-cased driver message
containing the text `unknown column`. -/
def isMissingColumnError (e : DbError) : Bool :=
  e.code == "ER_BAD_FIELD_ERROR" ||
    listHasSub ("unknown column").toList (e.message.toList.map charLower)

/-- The columns the leader goal-review base update writes (src/goal.js line
2118, with a `comment` key present in the request body). -/
def goalReviewBaseKeys : List String :=
  ["review_status", "leader_review_notes", "is_locked", "status"]

/-- The columns of the audit-bearing update (src/goal.js lines 2119-2127):
the base columns plus the optional audit columns. -/
def goalReviewAuditKeys : List String :=
  goalReviewBaseKeys ++
    ["reviewed_by", "reviewed_by_email", "reviewed_by_name",
     "reviewed_at", "approved_at", "rejected_at"]

/-- A persistence gateway whose table has exactly the columns `schema`: an
update succeeds when every written key is a column, and otherwise fails with
the mysql missing-column error class (`ER_BAD_FIELD_ERROR`). -/
def applyUpdateToSchema (schema : List String) (keys : List String) :
    Except DbError Unit :=
  match keys.find? (fun k => !(schema.contains k)) with
  | some k => .error { code := "ER_BAD_FIELD_ERROR", message := "Unknown column " ++ k }
  | none => .ok ()

/-- The try/catch of the leader review handlers (src/goal.js lines
2129-2139 and 2176-2186), instrumented with the list of update payloads
attempted: write the audit update; on a missing-column failure retry once
with the base update; propagate any other error. -/
def reviewWriteAttempts (gw : List String → Except DbError Unit)
    (auditKeys baseKeys : List String) :
    List (List String) × Except DbError Unit :=
  match gw auditKeys with
  | .ok _ => ([auditKeys], .ok ())
  | .error e =>
    if isMissingColumnError e then ([auditKeys, baseKeys], gw baseKeys)
    else ([auditKeys], .error e)

/-! ## Concrete rows and payloads used by the claim theorems -/

/-- A fresh, unlocked goal owned by member `u1`. -/
def c1Goal : Goal :=
  { user_id := "u1", status := "Not started", review_status := none,
    is_locked := false, progress := 0, leader_review_notes := none }

/-- The row `PUT /leader/goals/:id/review` produces from `c1Goal` on an
`Approved` decision. -/
def c1After : Goal :=
  { c1Goal with review_status := some "Approved", status := "In Progress", is_locked := true }

/-- A goal already under review: `review_status = "Pending"`, locked. -/
def c2Goal : Goal :=
  { user_id := "u1", status := "Not started", review_status := some "Pending",
    is_locked := true, progress := 0, leader_review_notes := none }

/-- An unlocked plan with one deadline change already consumed. -/
def c3Plan : ActionPlan :=
  { goal_id := "g1", status := some "In Progress", end_date := some "2025-01-31",
    request_deadline_date := none, deadline_change_count := some 1,
    review_status := none, is_locked := false, leader_review_notes := none,
    evidence_link := none }

/-- The owning goal of `c3Plan`. -/
def c3Goal : Goal :=
  { user_id := "u1", status := "In Progress", review_status := none,
    is_locked := false, progress := 10, leader_review_notes := none }

/-- A member body proposing only a new `end_date`. -/
def c3Body (d : String) : PlanUpdates :=
  { end_date := some (some d) }

/-- The row a successful deadline proposal of `d` produces from `c3Plan`. -/
def c3After : ActionPlan :=
  { c3Plan with
    request_deadline_date := some "2025-03-01"
    deadline_change_count := some 2
    review_status := some "Pending"
    is_locked := true
    leader_review_notes := none }

/-- An unlocked plan whose deadline-change quota is fully consumed. -/
def c3Plan3 : ActionPlan :=
  { goal_id := "g1", status := some "In Progress", end_date := some "2025-01-31",
    request_deadline_date := none, deadline_change_count := some 3,
    review_status := none, is_locked := false, leader_review_notes := none,
    evidence_link := none }

/-- A member body writing `deadline_change_count` directly, past the cap. -/
def c3RawBody7 : PlanUpdates :=
  { deadline_change_count := some 7 }

/-- A member body resetting `deadline_change_count` directly. -/
def c3RawBody0 : PlanUpdates :=
  { deadline_change_count := some 0 }

/-- An unlocked goal with no review yet, owned by `u1`. -/
def c4Goal : Goal :=
  { user_id := "u1", status := "Not started", review_status := none,
    is_locked := false, progress := 0, leader_review_notes := none }

/-- A member body that writes `review_status` directly (the handler strips
only `user_id` from the body). -/
def c4Body : GoalUpdates :=
  { review_status := some "Pending" }

/-- The row `putGoal` produces from `c4Goal` under `c4Body`. -/
def c4After : Goal :=
  { c4Goal with review_status := some "Pending" }

/-- The row `requestReview` produces from `c4Goal`. -/
def c4Req : Goal :=
  { c4Goal with review_status := some "Pending", is_locked := true }

/-- A benign member body touching only progress. -/
def c4Body2 : GoalUpdates :=
  { progress := some 10 }

/-- The row `putGoal` produces from `c4Goal` under `c4Body2`. -/
def c4After2 : Goal :=
  { c4Goal with progress := 10 }

/-- A plan with an outstanding deadline request awaiting leader decision. -/
def c5Plan : ActionPlan :=
  { goal_id := "g1", status := some "In Progress", end_date := some "2025-01-31",
    request_deadline_date := some "2025-02-28", deadline_change_count := some 1,
    review_status := some "Pending", is_locked := true, leader_review_notes := none,
    evidence_link := none }

/-- The row an `Approved` leader decision produces from `c5Plan`. -/
def c5After : ActionPlan :=
  { c5Plan with
    review_status := some "Approved"
    is_locked := false
    end_date := some "2025-02-28"
    request_deadline_date := none }

/-- An unlocked goal used for the progress-clamping witness. -/
def c6Goal : Goal :=
  { user_id := "u1", status := "In Progress", review_status := none,
    is_locked := false, progress := 40, leader_review_notes := none }

/-- A member body with an out-of-range progress value. -/
def c6Body : GoalUpdates :=
  { progress := some 150 }

/-- The row `putGoal` produces from `c6Goal` under `c6Body`. -/
def c6After : Goal :=
  { c6Goal with progress := 100, status := "Completed" }

/-- A caller whose only group is `manager`. -/
def c7Mgr : Identity :=
  { sub := "m1", groups := ["manager"] }

/-- A caller in the `leader` group. -/
def c7Leader : Identity :=
  { sub := "l1", groups := ["leader"] }

/-- A member caller. -/
def c7Member : Identity :=
  { sub := "u1", groups := [] }

/-- A goal owned by somebody else (`u2`). -/
def c7Goal : Goal :=
  { user_id := "u2", status := "In Progress", review_status := none,
    is_locked := false, progress := 0, leader_review_notes := none }

/-- A goal owned by the member caller `u1`. -/
def c7OwnGoal : Goal :=
  { user_id := "u1", status := "In Progress", review_status := none,
    is_locked := false, progress := 0, leader_review_notes := none }

/-- Reports in each of the weeks W-3, W-2, W-1 and W for `c8Now = 707`
(whose Monday is day 704). -/
def c8Reports4 : List WeeklyReport :=
  [ { action_plan_id := "a1", goal_id := "g1", date := some 685 },
    { action_plan_id := "a1", goal_id := "g1", date := some 692 },
    { action_plan_id := "a1", goal_id := "g1", date := some 699 },
    { action_plan_id := "a1", goal_id := "g1", date := some 706 } ]

/-- Reports in weeks W and W-1 only, with a gap at W-2 and older activity
at W-3 and W-4. -/
def c8ReportsGap : List WeeklyReport :=
  [ { action_plan_id := "a1", goal_id := "g1", date := some 706 },
    { action_plan_id := "a1", goal_id := "g1", date := some 699 },
    { action_plan_id := "a1", goal_id := "g1", date := some 685 },
    { action_plan_id := "a1", goal_id := "g1", date := some 676 } ]

/-- The `now` instant of the streak scenarios: day 707, in the week whose
Monday is day 704. -/
def c8Now : Int := 707

/-- An unlocked goal used for the owner-immutability witness. -/
def c10Goal : Goal :=
  { user_id := "u1", status := "In Progress", review_status := none,
    is_locked := false, progress := 0, leader_review_notes := none }

/-- A member body that tries to reassign the owner. -/
def c10Body : GoalUpdates :=
  { user_id := some "intruder", progress := some 20 }

/-- The row `putGoal` produces from `c10Goal` under `c10Body`: progress is
written, the owner is untouched. -/
def c10After : Goal :=
  { c10Goal with progress := 20 }

/-! ## Helper lemmas -/

/-- The leader goal-review lock expression is false exactly on `Rejected`
and `Cancelled` decisions. -/
theorem goalReviewLock_eq (s : String) :
    goalReviewLock s = !(s == "Rejected" || s == "Cancelled") := by
  by_cases h : s = "Approved"
  · subst h; decide
  · have hb : (s == "Approved") = false := beq_eq_false_iff_ne.mpr h
    cases h2 : (s == "Rejected" || s == "Cancelled") <;>
      simp [goalReviewLock, hb, h2]

/-- Every successful member goal update writes exactly the processed body
over the stored row. -/
theorem putGoal_ok (g : Goal) (c : String) (b : GoalUpdates) (g' : Goal)
    (h : putGoal (some g) c b = Except.ok g') :
    g' = applyGoalUpdates g (processProgress { b with user_id := none }) := by
  unfold putGoal at h
  dsimp only at h
  split_ifs at h <;> simp_all

/-- Progress pre-processing only touches the `progress` and `status` keys. -/
theorem processProgress_frame (u : GoalUpdates) :
    (processProgress u).user_id = u.user_id ∧
    (processProgress u).review_status = u.review_status ∧
    (processProgress u).is_locked = u.is_locked := by
  cases hp : u.progress <;> simp [processProgress, hp]
  split <;> simp

/-- Progress pre-processing with a present numeric progress value. -/
theorem processProgress_some (u : GoalUpdates) (p : ℚ) (hp : u.progress = some p) :
    processProgress u =
      if 100 ≤ clampProgress p
      then { u with progress := some (clampProgress p), status := some "Completed" }
      else { u with progress := some (clampProgress p) } := by
  unfold processProgress
  rw [hp]

/-! ## Claim theorems -/

/-- Claim C1, counterexample: a leader `Approved` decision on a fresh
"Not started" goal does advance `status` to "In Progress" and set
`review_status` to "Approved", but it sets `is_locked = true`, not the
`false` the claim states for the `Approved` decision. -/
theorem c1_approved_keeps_lock_cex :
    leaderGoalReview (some c1Goal) "Approved" none = Except.ok c1After ∧
    c1After.review_status = some "Approved" ∧
    c1After.status = "In Progress" ∧
    c1After.is_locked = true := by
  decide

/-- Claim C1, amended: after a leader review decision `s`, the resulting
`is_locked` is false exactly when `s` is "Rejected" or "Cancelled", and true
for "Approved", "Pending" and every other value; approving a goal whose
prior status was "Not started" or "Draft" leaves it with
`review_status = "Approved"`, `status = "In Progress"` and
`is_locked = true`. -/
theorem c1_goal_review_lock (g : Goal) (s : String) (cm : Option String) (g' : Goal)
    (h : leaderGoalReview (some g) s cm = Except.ok g') :
    g'.is_locked = !(s == "Rejected" || s == "Cancelled") ∧
    (s = "Approved" → (g.status = "Not started" ∨ g.status = "Draft") →
      g'.review_status = some "Approved" ∧ g'.status = "In Progress" ∧ g'.is_locked = true) := by
  unfold leaderGoalReview at h
  dsimp only at h
  simp only [Except.ok.injEq] at h
  subst h
  refine ⟨goalReviewLock_eq s, ?_⟩
  intro hs hst
  subst hs
  rcases hst with h1 | h1 <;> simp [h1, goalReviewLock]

/-- Claim C1, witness for the amended theorem at a concrete approval. -/
theorem c1_goal_review_lock_witness :
    c1After.review_status = some "Approved" ∧
    c1After.status = "In Progress" ∧
    c1After.is_locked = true :=
  (c1_goal_review_lock c1Goal "Approved" none c1After (by decide)).2 rfl (Or.inl rfl)

/-- Claim C2, counterexample: a second `request-review` on a goal that is
already `review_status = "Pending"` (owner caller, at least one action plan)
does not return 409: it succeeds, rewriting the same Pending/locked state. -/
theorem c2_duplicate_request_cex :
    requestReview (some c2Goal) "u1" true = Except.ok c2Goal ∧
    requestReview (some c2Goal) "u1" true ≠ Except.error 409 := by
  decide

/-- Claim C2, amended: a second owner `request-review` on a goal already in
`review_status = "Pending"` with at least one action plan succeeds
idempotently, re-setting `review_status = "Pending"` and `is_locked = true`;
the handler returns 409 only for an already approved goal or a goal without
any action plan. -/
theorem c2_duplicate_request (g : Goal) (c : String) (hp : Bool)
    (howner : g.user_id = c) (hpend : g.review_status = some "Pending")
    (hplan : hp = true) :
    requestReview (some g) c hp =
      Except.ok { g with review_status := some "Pending", is_locked := true } := by
  subst hplan
  unfold requestReview
  dsimp only
  simp [howner, hpend]

/-- Claim C2, witness for the amended theorem. -/
theorem c2_duplicate_request_witness :
    requestReview (some c2Goal) "u1" true =
      Except.ok { c2Goal with review_status := some "Pending", is_locked := true } :=
  c2_duplicate_request c2Goal "u1" true rfl rfl rfl

/-- Claim C3, counterexample: the counter bound does not hold across
arbitrary member updates — the handler spreads the raw body and the
end_date-only allow-list fires only while locked and pending, so a member
body writing `deadline_change_count` directly on an unlocked plan is stored
raw: from a stored count of 3 it jumps to 7 (exceeding 3) or drops to 0
(decreasing). -/
theorem c3_counter_raw_write_cex :
    putActionPlanMember "u1" (some c3Plan3) (some c3Goal) c3RawBody7 =
      Except.ok { c3Plan3 with deadline_change_count := some 7 } ∧
    putActionPlanMember "u1" (some c3Plan3) (some c3Goal) c3RawBody0 =
      Except.ok { c3Plan3 with deadline_change_count := some 0 } := by
  decide

/-- Claim C3, amended: along the deadline-change protocol — the member
`PUT /action-plans/:id` bodies that propose a deadline — the counter is
monotonically non-decreasing and never exceeds 3; a body writing
`deadline_change_count` directly is stored raw (see the counterexample).
A proposal, i.e. a body whose `end_date` is a
non-empty string different from the effective current deadline
(`request_deadline_date` if outstanding, else `end_date`): (1) is rejected
with 409 when `deadline_change_count` is already at least 3, before any
write, so the stored `end_date` and `request_deadline_date` are untouched;
(2) below 3, increments the counter, stores the desired date in
`request_deadline_date`, forces `review_status = "Pending"` and
`is_locked = true`, clears `leader_review_notes`, and leaves `end_date`
unchanged; (3) for every body containing such a proposal, any successful
update has the counter incremented exactly once from the stored value,
never writes `end_date`, and can only have happened with the stored counter
below 3 — so the counter is non-decreasing and never exceeds 3 along the
protocol. -/
theorem c3_deadline_quota :
    (∀ (c : String) (plan : ActionPlan) (goal : Goal) (d : String),
      goal.user_id = c → d ≠ "" → effectiveDeadline plan ≠ some d →
      3 ≤ planCount plan →
      putActionPlanMember c (some plan) (some goal) (c3Body d) = Except.error 409) ∧
    (∀ (c : String) (plan : ActionPlan) (goal : Goal) (d : String),
      goal.user_id = c → d ≠ "" → effectiveDeadline plan ≠ some d →
      planCount plan < 3 →
      putActionPlanMember c (some plan) (some goal) (c3Body d) =
        Except.ok { plan with
          request_deadline_date := some d
          deadline_change_count := some (planCount plan + 1)
          review_status := some "Pending"
          is_locked := true
          leader_review_notes := none }) ∧
    (∀ (c : String) (plan : ActionPlan) (goal : Goal) (body : PlanUpdates)
        (d : String) (p' : ActionPlan),
      body.end_date = some (some d) → d ≠ "" → effectiveDeadline plan ≠ some d →
      putActionPlanMember c (some plan) (some goal) body = Except.ok p' →
      p'.deadline_change_count = some (planCount plan + 1) ∧
      p'.end_date = plan.end_date ∧
      planCount plan < 3) := by
  refine ⟨?_, ?_, ?_⟩
  · intro c plan goal d h1 h2 h3 h4
    unfold putActionPlanMember
    dsimp only
    simp [c3Body, PlanUpdates.keys, planStatusChanged, h1, h2, h3, ge_iff_le, h4]
  · intro c plan goal d h1 h2 h3 h4
    have h5 : ¬ (3 ≤ planCount plan) := not_le.mpr h4
    unfold putActionPlanMember
    dsimp only
    simp [c3Body, PlanUpdates.keys, planStatusChanged, h1, h2, h3, h5,
      applyPlanUpdates, deadlineApplied]
  · intro c plan goal body d p' hend h2 h3 h
    unfold putActionPlanMember at h
    dsimp only at h
    rw [hend] at h
    split_ifs at h <;> simp_all [applyPlanUpdates, deadlineApplied, not_le]
    subst h
    simp

/-- Claim C3, witness: a concrete in-quota proposal on a plan with one
change consumed. -/
theorem c3_deadline_quota_witness :
    putActionPlanMember "u1" (some c3Plan) (some c3Goal) (c3Body "2025-03-01") =
      Except.ok c3After :=
  by
    have h := c3_deadline_quota.2.1 "u1" c3Plan c3Goal "2025-03-01" rfl
      (by decide) (by decide) (by decide)
    simpa [c3After, c3Plan] using h

/-- Claim C4, counterexample: a member update is a state-machine transition
of the claim's list, yet a body carrying `review_status = "Pending"` (the
handler strips only `user_id`) applied to an unlocked goal yields a row with
`review_status = "Pending"` and `is_locked = false`, violating the
invariant. -/
theorem c4_pending_locked_cex :
    putGoal (some c4Goal) "u1" c4Body = Except.ok c4After ∧
    c4After.review_status = some "Pending" ∧
    c4After.is_locked = false := by
  decide

/-- Claim C4, amended: the invariant `review_status = "Pending" implies
is_locked` holds after request-review, cancel-review and leader review
decisions, and is preserved by every member update whose payload does not
write `review_status` or `is_locked` directly; a payload writing
`review_status` can break it (see the counterexample). -/
theorem c4_pending_implies_locked :
    (∀ (g : Goal) (c : String) (hp : Bool) (g' : Goal),
      requestReview (some g) c hp = Except.ok g' →
      g'.review_status = some "Pending" → g'.is_locked = true) ∧
    (∀ (g : Goal) (c : String) (g' : Goal),
      cancelReview (some g) c = Except.ok g' →
      g'.review_status = some "Pending" → g'.is_locked = true) ∧
    (∀ (g : Goal) (s : String) (cm : Option String) (g' : Goal),
      leaderGoalReview (some g) s cm = Except.ok g' →
      g'.review_status = some "Pending" → g'.is_locked = true) ∧
    (∀ (g : Goal) (c : String) (b : GoalUpdates) (g' : Goal),
      b.review_status = none → b.is_locked = none →
      (g.review_status = some "Pending" → g.is_locked = true) →
      putGoal (some g) c b = Except.ok g' →
      g'.review_status = some "Pending" → g'.is_locked = true) := by
  refine ⟨?_, ?_, ?_, ?_⟩
  · intro g c hp g' h _
    unfold requestReview at h
    dsimp only at h
    split_ifs at h
    simp_all
    subst h
    rfl
  · intro g c g' h hpend
    unfold cancelReview at h
    dsimp only at h
    split_ifs at h
    simp_all
    subst h
    simp at hpend
  · intro g s cm g' h hpend
    unfold leaderGoalReview at h
    dsimp only at h
    simp only [Except.ok.injEq] at h
    subst h
    simp only at hpend
    simp only [Option.some.injEq] at hpend
    subst hpend
    simp [goalReviewLock]
  · intro g c b g' hrs hlk hinv h hpend
    have hg := putGoal_ok g c b g' h
    have hframe := processProgress_frame { b with user_id := none }
    subst hg
    simp only [applyGoalUpdates] at hpend ⊢
    rw [hframe.2.1] at hpend
    rw [hframe.2.2]
    simp only [hrs] at hpend
    simp only [hlk]
    exact hinv hpend

/-- Claim C4, witness: the invariant facts at concrete transitions — a
request-review locks, and a benign progress-only member update preserves
the (vacuously pending-free) invariant. -/
theorem c4_pending_implies_locked_witness :
    c4Req.is_locked = true ∧
    (c4After2.review_status = some "Pending" → c4After2.is_locked = true) :=
  ⟨c4_pending_implies_locked.1 c4Goal "u1" true c4Req (by decide) rfl,
   c4_pending_implies_locked.2.2.2 c4Goal "u1" c4Body2 c4After2 rfl rfl
     (by decide) (by decide)⟩

/-- Claim C5: the leader action-plan review decision applies or discards a
pending deadline request — on `Approved` with an outstanding (non-empty)
`request_deadline_date`, that date is copied into `end_date` and the field
is cleared; on `Rejected` the field is cleared without touching
`end_date`. -/
theorem c5_plan_review_deadline :
    (∀ (plan : ActionPlan) (cm : Option String) (d : String) (p' : ActionPlan),
      plan.request_deadline_date = some d → d ≠ "" →
      leaderPlanReview (some plan) "Approved" cm = Except.ok p' →
      p'.end_date = some d ∧ p'.request_deadline_date = none) ∧
    (∀ (plan : ActionPlan) (cm : Option String) (p' : ActionPlan),
      leaderPlanReview (some plan) "Rejected" cm = Except.ok p' →
      p'.request_deadline_date = none ∧ p'.end_date = plan.end_date) := by
  constructor
  · intro plan cm d p' hreq hne h
    unfold leaderPlanReview at h
    dsimp only at h
    rw [hreq] at h
    simp [jsTruthy, hne, Except.ok.injEq] at h
    subst h
    simp [hreq]
  · intro plan cm p' h
    unfold leaderPlanReview at h
    dsimp only at h
    simp [jsTruthy, Except.ok.injEq] at h
    subst h
    simp

/-- Claim C5, witness: a concrete approval applying the pending deadline. -/
theorem c5_plan_review_deadline_witness :
    c5After.end_date = some "2025-02-28" ∧ c5After.request_deadline_date = none :=
  c5_plan_review_deadline.1 c5Plan none "2025-02-28" c5After rfl (by decide) (by decide)

/-- Claim C6: for every numeric progress value `p` in a member goal-update
body, a successful update stores exactly `p` clamped into `[0, 100]`, and
whenever `p` is at least 100 (so the clamp lands on 100) the stored status
is forced to "Completed". -/
theorem c6_progress_clamped (g : Goal) (c : String) (b : GoalUpdates) (p : ℚ)
    (g' : Goal) (hp : b.progress = some p)
    (h : putGoal (some g) c b = Except.ok g') :
    g'.progress = clampProgress p ∧
    0 ≤ g'.progress ∧ g'.progress ≤ 100 ∧
    (100 ≤ p → g'.status = "Completed") := by
  have hg := putGoal_ok g c b g' h
  subst hg
  have hp2 : ({ b with user_id := none } : GoalUpdates).progress = some p := hp
  rw [processProgress_some _ p hp2]
  by_cases h100 : 100 ≤ clampProgress p
  · rw [if_pos h100]
    exact ⟨rfl, le_max_left 0 _, max_le (by norm_num) (min_le_left _ _), fun _ => rfl⟩
  · rw [if_neg h100]
    refine ⟨rfl, le_max_left 0 _, max_le (by norm_num) (min_le_left _ _), ?_⟩
    intro hp100
    exfalso
    apply h100
    unfold clampProgress
    rw [min_eq_left hp100]
    exact le_max_right 0 100

/-- Claim C6, witness: an out-of-range progress of 150 stores 100 and
completes the goal. -/
theorem c6_progress_clamped_witness :
    c6After.progress = clampProgress 150 ∧ c6After.status = "Completed" :=
  ⟨(c6_progress_clamped c6Goal "u1" c6Body 150 c6After rfl (by decide)).1,
   (c6_progress_clamped c6Goal "u1" c6Body 150 c6After rfl (by decide)).2.2.2
     (by norm_num)⟩

/-- Claim C7, counterexample: a caller whose only group is `manager` is not
exempted by `isLeaderUser`, so the ownership check blocks it with 403 on an
existing goal owned by someone else — the claim's "leader or manager ...
never blocked" fails for the manager group. -/
theorem c7_manager_blocked_cex :
    assertCanAccessGoal c7Mgr (some c7Goal) = AccessResult.denied 403 "Forbidden" ∧
    isLeaderUser c7Mgr = false := by
  decide

/-- Claim C7, amended: the access guards return 404 when the requested row
is missing, 403 when it exists but the owning goal belongs to another user,
and success for the owner; a caller in the `leader` group is never blocked;
a caller whose groups contain only `manager` is treated as a member (see the
counterexample). -/
theorem c7_access_guard :
    (∀ (idt : Identity) (goal : Option Goal), isLeaderUser idt = true →
      assertCanAccessGoal idt goal = AccessResult.allowed) ∧
    (∀ (idt : Identity) (plan : Option ActionPlan) (goalOf : String → Option Goal),
      isLeaderUser idt = true →
      assertCanAccessActionPlan idt plan goalOf = AccessResult.allowed) ∧
    (∀ (idt : Identity) (report : Option WeeklyReport)
        (planOf : String → Option ActionPlan) (goalOf : String → Option Goal),
      isLeaderUser idt = true →
      assertCanAccessWeeklyReport idt report planOf goalOf = AccessResult.allowed) ∧
    (∀ (idt : Identity), isLeaderUser idt = false →
      assertCanAccessGoal idt none = AccessResult.denied 404 "Goal not found" ∧
      (∀ g : Goal, g.user_id ≠ idt.sub →
        assertCanAccessGoal idt (some g) = AccessResult.denied 403 "Forbidden") ∧
      (∀ g : Goal, g.user_id = idt.sub →
        assertCanAccessGoal idt (some g) = AccessResult.allowed)) ∧
    (∀ (idt : Identity) (goalOf : String → Option Goal), isLeaderUser idt = false →
      assertCanAccessActionPlan idt none goalOf = AccessResult.denied 404 "Action plan not found" ∧
      (∀ (p : ActionPlan) (g : Goal), goalOf p.goal_id = some g → g.user_id ≠ idt.sub →
        assertCanAccessActionPlan idt (some p) goalOf = AccessResult.denied 403 "Forbidden") ∧
      (∀ (p : ActionPlan) (g : Goal), goalOf p.goal_id = some g → g.user_id = idt.sub →
        assertCanAccessActionPlan idt (some p) goalOf = AccessResult.allowed)) ∧
    (∀ (idt : Identity) (planOf : String → Option ActionPlan)
        (goalOf : String → Option Goal), isLeaderUser idt = false →
      assertCanAccessWeeklyReport idt none planOf goalOf =
        AccessResult.denied 404 "Weekly report not found" ∧
      (∀ r : WeeklyReport,
        assertCanAccessWeeklyReport idt (some r) planOf goalOf =
          assertCanAccessActionPlan idt (planOf r.action_plan_id) goalOf)) := by
  refine ⟨?_, ?_, ?_, ?_, ?_, ?_⟩
  · intro idt goal h
    simp [assertCanAccessGoal, h]
  · intro idt plan goalOf h
    simp [assertCanAccessActionPlan, h]
  · intro idt report planOf goalOf h
    simp [assertCanAccessWeeklyReport, h]
  · intro idt h
    refine ⟨by simp [assertCanAccessGoal, h], ?_, ?_⟩
    · intro g hg
      simp [assertCanAccessGoal, h, hg]
    · intro g hg
      simp [assertCanAccessGoal, h, hg]
  · intro idt goalOf h
    refine ⟨by simp [assertCanAccessActionPlan, h], ?_, ?_⟩
    · intro p g hgoal hg
      simp [assertCanAccessActionPlan, h, hgoal, hg]
    · intro p g hgoal hg
      simp [assertCanAccessActionPlan, h, hgoal, hg]
  · intro idt planOf goalOf h
    exact ⟨by simp [assertCanAccessWeeklyReport, h],
      fun r => by simp [assertCanAccessWeeklyReport, h]⟩

/-- Claim C7, witness: concrete guard outcomes — a leader passes on a
foreign goal, the owner passes, a missing row yields 404, a non-owner
member yields 403. -/
theorem c7_access_guard_witness :
    assertCanAccessGoal c7Leader (some c7Goal) = AccessResult.allowed ∧
    assertCanAccessGoal c7Member (some c7OwnGoal) = AccessResult.allowed ∧
    assertCanAccessGoal c7Member none = AccessResult.denied 404 "Goal not found" ∧
    assertCanAccessGoal c7Member (some c7Goal) = AccessResult.denied 403 "Forbidden" :=
  ⟨c7_access_guard.1 c7Leader (some c7Goal) (by decide),
   (c7_access_guard.2.2.2.1 c7Member (by decide)).2.2 c7OwnGoal (by decide),
   (c7_access_guard.2.2.2.1 c7Member (by decide)).1,
   (c7_access_guard.2.2.2.1 c7Member (by decide)).2.1 c7Goal (by decide)⟩

/-- Inductive characterisation of the streak loop: every counted step was
an active week, and when the loop stopped before exhausting its fuel, the
week right after the counted run was inactive. -/
theorem streakFrom_spec (wks : List Int) (ws : Int) :
    ∀ (fuel i : Nat),
      streakFrom wks ws i fuel ≤ fuel ∧
      (∀ j, j < streakFrom wks ws i fuel →
        wks.contains (jsWeekStart (ws - 7 * ((i + j : Nat) : Int))) = true) ∧
      (streakFrom wks ws i fuel < fuel →
        wks.contains (jsWeekStart (ws - 7 * ((i + streakFrom wks ws i fuel : Nat) : Int))) = false) := by
  intro fuel
  induction fuel with
  | zero =>
    intro i
    refine ⟨le_refl 0, ?_, ?_⟩
    · intro j hj
      simp [streakFrom] at hj
    · intro hlt
      simp [streakFrom] at hlt
  | succ f ih =>
    intro i
    by_cases hc : wks.contains (jsWeekStart (ws - 7 * (i : Int))) = true
    · have hs : streakFrom wks ws i (f + 1) = streakFrom wks ws (i + 1) f + 1 := by
        have he : streakFrom wks ws i (f + 1) =
            if wks.contains (jsWeekStart (ws - 7 * (i : Int))) then
              streakFrom wks ws (i + 1) f + 1
            else 0 := rfl
        rw [he, if_pos hc]
      refine ⟨?_, ?_, ?_⟩
      · rw [hs]
        exact Nat.succ_le_succ (ih (i + 1)).1
      · intro j hj
        rw [hs] at hj
        cases j with
        | zero =>
          simpa using hc
        | succ j' =>
          have hj' : j' < streakFrom wks ws (i + 1) f := Nat.lt_of_succ_lt_succ hj
          have := (ih (i + 1)).2.1 j' hj'
          have harg : i + 1 + j' = i + (j' + 1) := by omega
          rwa [harg] at this
      · intro hlt
        rw [hs] at hlt ⊢
        have hlt' : streakFrom wks ws (i + 1) f < f := Nat.lt_of_succ_lt_succ hlt
        have := (ih (i + 1)).2.2 hlt'
        have harg : i + 1 + streakFrom wks ws (i + 1) f =
            i + (streakFrom wks ws (i + 1) f + 1) := by omega
        rwa [harg] at this
    · have hcf : wks.contains (jsWeekStart (ws - 7 * (i : Int))) = false :=
        Bool.eq_false_iff.mpr hc
      have hs : streakFrom wks ws i (f + 1) = 0 := by
        have he : streakFrom wks ws i (f + 1) =
            if wks.contains (jsWeekStart (ws - 7 * (i : Int))) then
              streakFrom wks ws (i + 1) f + 1
            else 0 := rfl
        rw [he, if_neg hc]
      refine ⟨?_, ?_, ?_⟩
      · rw [hs]
        exact Nat.zero_le _
      · intro j hj
        rw [hs] at hj
        exact absurd hj (Nat.not_lt_zero j)
      · intro _
        rw [hs]
        simpa using hcf

/-- Claim C8: the weekly activity streak counts consecutive week-keys
walking backward from the current week (Monday start), stopping at the
first week with no report — every week inside the streak is active, the
week right past it (when the lookback is not exhausted) is not, and the two
scenario instances of the claim hold: reports in each of W-3..W give streak
4, a gap at W-2 with reports at W-1 and W gives streak 2 despite older
activity. -/
theorem c8_streak :
    (∀ (reports : List WeeklyReport) (now : Int) (lb : Nat),
      streakWeeks reports now lb ≤ lb ∧
      (∀ j, j < streakWeeks reports now lb → weekActiveAt reports now j = true) ∧
      (streakWeeks reports now lb < lb →
        weekActiveAt reports now (streakWeeks reports now lb) = false)) ∧
    streakWeeks c8Reports4 c8Now 8 = 4 ∧
    streakWeeks c8ReportsGap c8Now 8 = 2 := by
  refine ⟨?_, by decide, by decide⟩
  intro reports now lb
  have h := streakFrom_spec (reportWeeks reports) (jsWeekStart now) lb 0
  refine ⟨h.1, ?_, ?_⟩
  · intro j hj
    have := h.2.1 j hj
    simpa [weekActiveAt, streakWeeks] using this
  · intro hlt
    have := h.2.2 hlt
    simpa [weekActiveAt, streakWeeks] using this

/-- Claim C8, witness: the general characterisation applied at the
four-consecutive-weeks scenario — week W-2 is active because it lies inside
the streak of 4. -/
theorem c8_streak_witness :
    weekActiveAt c8Reports4 c8Now 2 = true :=
  (c8_streak.1 c8Reports4 c8Now 8).2.1 2 (by decide)

/-- A missing-column gateway failure always carries the mysql code the
fallback tests for. -/
theorem applyUpdateToSchema_error_code (schema keys : List String) (e : DbError)
    (h : applyUpdateToSchema schema keys = Except.error e) :
    e.code = "ER_BAD_FIELD_ERROR" := by
  unfold applyUpdateToSchema at h
  cases hf : keys.find? (fun k => !(schema.contains k)) with
  | none => rw [hf] at h; simp at h
  | some k =>
    rw [hf] at h
    simp only [Except.error.injEq] at h
    rw [← h]

/-- Claim C9: the audit-field fallback of the leader review writes. (1) For
every table schema that has all base review columns — whether or not the
optional audit columns exist — the review write succeeds. (2) When the audit
write fails with a missing-column error, the handler retries exactly once,
with the base payload, and returns that retry's outcome. (3) Any other
gateway error is propagated without a retry. -/
theorem c9_audit_fallback :
    (∀ schema : List String,
      (∀ k ∈ goalReviewBaseKeys, schema.contains k = true) →
      (reviewWriteAttempts (applyUpdateToSchema schema)
        goalReviewAuditKeys goalReviewBaseKeys).2 = Except.ok ()) ∧
    (∀ (gw : List String → Except DbError Unit) (e : DbError),
      gw goalReviewAuditKeys = Except.error e → isMissingColumnError e = true →
      reviewWriteAttempts gw goalReviewAuditKeys goalReviewBaseKeys =
        ([goalReviewAuditKeys, goalReviewBaseKeys], gw goalReviewBaseKeys)) ∧
    (∀ (gw : List String → Except DbError Unit) (e : DbError),
      gw goalReviewAuditKeys = Except.error e → isMissingColumnError e = false →
      reviewWriteAttempts gw goalReviewAuditKeys goalReviewBaseKeys =
        ([goalReviewAuditKeys], Except.error e)) := by
  refine ⟨?_, ?_, ?_⟩
  · intro schema h
    cases hgw : applyUpdateToSchema schema goalReviewAuditKeys with
    | ok u =>
      cases u
      simp [reviewWriteAttempts, hgw]
    | error e =>
      have hcode := applyUpdateToSchema_error_code schema goalReviewAuditKeys e hgw
      have hmiss : isMissingColumnError e = true := by
        simp [isMissingColumnError, hcode]
      have hbase : applyUpdateToSchema schema goalReviewBaseKeys = Except.ok () := by
        unfold applyUpdateToSchema
        have hfind : goalReviewBaseKeys.find? (fun k => !(schema.contains k)) = none := by
          rw [List.find?_eq_none]
          intro x hx
          rw [h x hx]
          simp
        rw [hfind]
      simp [reviewWriteAttempts, hgw, hmiss, hbase]
  · intro gw e hgw hmiss
    simp [reviewWriteAttempts, hgw, hmiss]
  · intro gw e hgw hmiss
    simp [reviewWriteAttempts, hgw, hmiss]

/-- Claim C9, witness: a schema holding exactly the base columns (the audit
columns are absent) still lets the review write succeed. -/
theorem c9_audit_fallback_witness :
    (reviewWriteAttempts (applyUpdateToSchema goalReviewBaseKeys)
      goalReviewAuditKeys goalReviewBaseKeys).2 = Except.ok () :=
  c9_audit_fallback.1 goalReviewBaseKeys (by decide)

/-- Claim C10: the stored owner of a goal never comes from a request body —
`POST /goals` records the caller id whatever `user_id` the body carries, and
every successful member `PUT /goals/:id` leaves the stored `user_id`
unchanged. -/
theorem c10_owner_immutable :
    (∀ (body : GoalUpdates) (callerId : String),
      (postGoalInsert body callerId).user_id = some callerId) ∧
    (∀ (g : Goal) (c : String) (b : GoalUpdates) (g' : Goal),
      putGoal (some g) c b = Except.ok g' → g'.user_id = g.user_id) := by
  constructor
  · intro body callerId
    rfl
  · intro g c b g' h
    have hg := putGoal_ok g c b g' h
    subst hg
    have hframe := processProgress_frame { b with user_id := none }
    simp only [applyGoalUpdates]
    rw [hframe.1]

/-- Claim C10, witness: a body carrying a foreign `user_id` neither changes
the insert owner nor the stored owner on update. -/
theorem c10_owner_immutable_witness :
    (postGoalInsert c10Body "u1").user_id = some "u1" ∧
    c10After.user_id = c10Goal.user_id :=
  ⟨c10_owner_immutable.1 c10Body "u1",
   c10_owner_immutable.2 c10Goal "u1" c10Body c10After (by decide)⟩
